import Mathlib

/-!
Verification of the message-type and regional-extension dispatch engine of
the ITS (Intelligent Transport Systems) dissector
(`epan/dissectors/asn1/its/packet-its-template.c`).

The development shallowly embeds the dispatch/resolution core:
* the cause-code to sub-cause-vocabulary resolver
  (`cause_to_subcause` / `find_subcause_from_cause`),
* the regional-extension open-type resolver (`dissect_regextval_pdu`
  over the `dsrc.regionid` dissector table),
* the message-id dispatcher with its Decode-As override store
  (modelled from the spec where the generated includes and the host
  framework are not part of the source tree).

Machine integers are modelled as `Nat` with explicit `% 2^32` where
32-bit wraparound matters.
-/

set_option autoImplicit false

namespace ItsDissector

/-!
## Cause / Sub-cause resolver

`CauseCodeType_enum` is a C enum (an integer type); cause codes are
modelled as `Nat`.  The `hf_...` sub-cause header-field variables are
distinct static C variables whose addresses are stored in the table;
they are modelled as constructors of an inductive type.
-/

/-- The distinct sub-cause header-field variables of the source file:
the 24 specific `hf_its_...SubCauseCode` statics plus the generic
fallback `hf_its_subCauseCode` (from the generated field array). -/
inductive SubCauseHf where
  | hf_its_trafficConditionSubCauseCode
  | hf_its_accidentSubCauseCode
  | hf_its_roadworksSubCauseCode
  | hf_its_adverseWeatherCondition_PrecipitationSubCauseCode
  | hf_its_adverseWeatherCondition_VisibilitySubCauseCode
  | hf_its_adverseWeatherCondition_AdhesionSubCauseCode
  | hf_its_adverseWeatherCondition_ExtremeWeatherConditionSubCauseCode
  | hf_its_hazardousLocation_AnimalOnTheRoadSubCauseCode
  | hf_its_hazardousLocation_ObstacleOnTheRoadSubCauseCode
  | hf_its_hazardousLocation_SurfaceConditionSubCauseCode
  | hf_its_hazardousLocation_DangerousCurveSubCauseCode
  | hf_its_humanPresenceOnTheRoadSubCauseCode
  | hf_its_wrongWayDrivingSubCauseCode
  | hf_its_rescueAndRecoveryWorkInProgressSubCauseCode
  | hf_its_slowVehicleSubCauseCode
  | hf_its_dangerousEndOfQueueSubCauseCode
  | hf_its_vehicleBreakdownSubCauseCode
  | hf_its_postCrashSubCauseCode
  | hf_its_humanProblemSubCauseCode
  | hf_its_stationaryVehicleSubCauseCode
  | hf_its_emergencyVehicleApproachingSubCauseCode
  | hf_its_collisionRiskSubCauseCode
  | hf_its_signalViolationSubCauseCode
  | hf_its_dangerousSituationSubCauseCode
  | hf_its_subCauseCode
  deriving DecidableEq

/-- Modelled from the spec: the numeric values of `CauseCodeType_enum`
live in the generated header `packet-its.h`, which is not part of the
template source; the spec describes them as the fixed standard-defined
CauseCode vocabulary (ETSI EN 302 637-3), whose enumerant values are
used here.  `reserved` is 0. -/
def reserved : Nat := 0

/-- Modelled from the spec: CauseCode enumerant (see `reserved`). -/
def trafficCondition : Nat := 1

/-- Modelled from the spec: CauseCode enumerant (see `reserved`). -/
def accident : Nat := 2

/-- Modelled from the spec: CauseCode enumerant (see `reserved`). -/
def roadworks : Nat := 3

/-- Modelled from the spec: CauseCode enumerant (see `reserved`). -/
def adverseWeatherCondition_Adhesion : Nat := 6

/-- Modelled from the spec: CauseCode enumerant (see `reserved`). -/
def hazardousLocation_SurfaceCondition : Nat := 9

/-- Modelled from the spec: CauseCode enumerant (see `reserved`). -/
def hazardousLocation_ObstacleOnTheRoad : Nat := 10

/-- Modelled from the spec: CauseCode enumerant (see `reserved`). -/
def hazardousLocation_AnimalOnTheRoad : Nat := 11

/-- Modelled from the spec: CauseCode enumerant (see `reserved`). -/
def humanPresenceOnTheRoad : Nat := 12

/-- Modelled from the spec: CauseCode enumerant (see `reserved`). -/
def wrongWayDriving : Nat := 14

/-- Modelled from the spec: CauseCode enumerant (see `reserved`). -/
def rescueAndRecoveryWorkInProgress : Nat := 15

/-- Modelled from the spec: CauseCode enumerant (see `reserved`). -/
def adverseWeatherCondition_ExtremeWeatherCondition : Nat := 17

/-- Modelled from the spec: CauseCode enumerant (see `reserved`). -/
def adverseWeatherCondition_Visibility : Nat := 18

/-- Modelled from the spec: CauseCode enumerant (see `reserved`). -/
def adverseWeatherCondition_Precipitation : Nat := 19

/-- Modelled from the spec: CauseCode enumerant (see `reserved`). -/
def slowVehicle : Nat := 26

/-- Modelled from the spec: CauseCode enumerant (see `reserved`). -/
def dangerousEndOfQueue : Nat := 27

/-- Modelled from the spec: CauseCode enumerant (see `reserved`). -/
def vehicleBreakdown : Nat := 91

/-- Modelled from the spec: CauseCode enumerant (see `reserved`). -/
def postCrash : Nat := 92

/-- Modelled from the spec: CauseCode enumerant (see `reserved`). -/
def humanProblem : Nat := 93

/-- Modelled from the spec: CauseCode enumerant (see `reserved`). -/
def stationaryVehicle : Nat := 94

/-- Modelled from the spec: CauseCode enumerant (see `reserved`). -/
def emergencyVehicleApproaching : Nat := 95

/-- Modelled from the spec: CauseCode enumerant (see `reserved`). -/
def hazardousLocation_DangerousCurve : Nat := 96

/-- Modelled from the spec: CauseCode enumerant (see `reserved`). -/
def collisionRisk : Nat := 97

/-- Modelled from the spec: CauseCode enumerant (see `reserved`). -/
def signalViolation : Nat := 98

/-- Modelled from the spec: CauseCode enumerant (see `reserved`). -/
def dangerousSituation : Nat := 99

/-- The static association table `cause_to_subcause[]` of the source, in
source order.  A `none` second component models a NULL `hf` pointer; the
final `(reserved, NULL)` entry is the loop sentinel. -/
def cause_to_subcause : List (Nat × Option SubCauseHf) :=
  [ (trafficCondition, some .hf_its_trafficConditionSubCauseCode),
    (accident, some .hf_its_accidentSubCauseCode),
    (roadworks, some .hf_its_roadworksSubCauseCode),
    (adverseWeatherCondition_Precipitation,
      some .hf_its_adverseWeatherCondition_PrecipitationSubCauseCode),
    (adverseWeatherCondition_Visibility,
      some .hf_its_adverseWeatherCondition_VisibilitySubCauseCode),
    (adverseWeatherCondition_Adhesion,
      some .hf_its_adverseWeatherCondition_AdhesionSubCauseCode),
    (adverseWeatherCondition_ExtremeWeatherCondition,
      some .hf_its_adverseWeatherCondition_ExtremeWeatherConditionSubCauseCode),
    (hazardousLocation_AnimalOnTheRoad,
      some .hf_its_hazardousLocation_AnimalOnTheRoadSubCauseCode),
    (hazardousLocation_ObstacleOnTheRoad,
      some .hf_its_hazardousLocation_ObstacleOnTheRoadSubCauseCode),
    (hazardousLocation_SurfaceCondition,
      some .hf_its_hazardousLocation_SurfaceConditionSubCauseCode),
    (hazardousLocation_DangerousCurve,
      some .hf_its_hazardousLocation_DangerousCurveSubCauseCode),
    (humanPresenceOnTheRoad, some .hf_its_humanPresenceOnTheRoadSubCauseCode),
    (wrongWayDriving, some .hf_its_wrongWayDrivingSubCauseCode),
    (rescueAndRecoveryWorkInProgress,
      some .hf_its_rescueAndRecoveryWorkInProgressSubCauseCode),
    (slowVehicle, some .hf_its_slowVehicleSubCauseCode),
    (dangerousEndOfQueue, some .hf_its_dangerousEndOfQueueSubCauseCode),
    (vehicleBreakdown, some .hf_its_vehicleBreakdownSubCauseCode),
    (postCrash, some .hf_its_postCrashSubCauseCode),
    (humanProblem, some .hf_its_humanProblemSubCauseCode),
    (stationaryVehicle, some .hf_its_stationaryVehicleSubCauseCode),
    (emergencyVehicleApproaching,
      some .hf_its_emergencyVehicleApproachingSubCauseCode),
    (collisionRisk, some .hf_its_collisionRiskSubCauseCode),
    (signalViolation, some .hf_its_signalViolationSubCauseCode),
    (dangerousSituation, some .hf_its_dangerousSituationSubCauseCode),
    (reserved, none) ]

/-- The scan loop of `find_subcause_from_cause`: advance while the
current entry has a non-NULL `hf` and a cause different from the one
sought; the result is the `hf` field of the entry the loop stopped at
(`none` past the end, which the sentinel makes unreachable). -/
def subcauseScan : List (Nat × Option SubCauseHf) → Nat → Option SubCauseHf
  | [], _ => none
  | e :: rest, cause =>
      if e.2.isSome ∧ e.1 ≠ cause then subcauseScan rest cause else e.2

/-- `find_subcause_from_cause`: scan `cause_to_subcause` and return the
matched entry's `hf`, falling back to `hf_its_subCauseCode` when the
stopping entry's `hf` is NULL. -/
def find_subcause_from_cause (cause : Nat) : SubCauseHf :=
  (subcauseScan cause_to_subcause cause).getD .hf_its_subCauseCode

/-- The cause codes carrying a dedicated (non-NULL) sub-cause vocabulary
in `cause_to_subcause`, i.e. all entries before the sentinel. -/
def knownCauses : List Nat :=
  [ trafficCondition, accident, roadworks,
    adverseWeatherCondition_Precipitation, adverseWeatherCondition_Visibility,
    adverseWeatherCondition_Adhesion,
    adverseWeatherCondition_ExtremeWeatherCondition,
    hazardousLocation_AnimalOnTheRoad, hazardousLocation_ObstacleOnTheRoad,
    hazardousLocation_SurfaceCondition, hazardousLocation_DangerousCurve,
    humanPresenceOnTheRoad, wrongWayDriving, rescueAndRecoveryWorkInProgress,
    slowVehicle, dangerousEndOfQueue, vehicleBreakdown, postCrash,
    humanProblem, stationaryVehicle, emergencyVehicleApproaching,
    collisionRisk, signalViolation, dangerousSituation ]

/-- Modelled from the spec: the SubCauseCode field decoder lives in the
generated include `packet-its-fn.c`, absent from the template source.
Per the spec, the resolver is invoked with the CauseCode captured in the
per-packet DispatchContext; when no CauseCode has been recorded the
zero-initialised context yields `reserved` (0), resolved defensively to
the fallback vocabulary. -/
def resolveSubCauseHf (activeCause : Option Nat) : SubCauseHf :=
  find_subcause_from_cause (activeCause.getD reserved)

/-!
## Regional extension resolver

`dissect_regextval_pdu` reads the per-packet private data
(`its_private_data_t`) and tries the `dsrc.regionid` dissector table at
the composite key `((guint32) region_id << 16) + (guint32) type` in
32-bit unsigned arithmetic, falling back to the data dissector.  The
byte span (`tvbuff_t`) is modelled as a list of bytes, a dissector table
as an association list from keys to handlers, and each registered
handler by an opaque tag recording which handler ran.
-/

/-- The eight regional-extension handlers registered on the
`dsrc.regionid` table in `proto_reg_handoff_its` (the
`dissect_AddGrpC_..._PDU` routines). -/
inductive RegExtHandler where
  | ConnectionManeuverAssist_addGrpC
  | ConnectionTrajectory_addGrpC
  | Control_addGrpC
  | IntersectionState_addGrpC
  | MapData_addGrpC
  | Position3D_addGrpC
  | RestrictionUserType_addGrpC
  | SignalStatusPackage_addGrpC
  deriving DecidableEq

/-- `its_private_data_t`: the per-packet context threaded through one
dissection call, holding the open-type extension kind (`type`), the
active `region_id` and the active `cause_code`; all three are 32-bit
unsigned fields. -/
structure its_private_data_t where
  type : Nat
  region_id : Nat
  cause_code : Nat
  deriving DecidableEq

/-- `dissector_try_uint_new` on a `uint`-keyed dissector table: return
the handler registered under the key, if any. -/
def dissector_try_uint_new (tbl : List (Nat × RegExtHandler)) (key : Nat) :
    Option RegExtHandler :=
  (tbl.find? (fun e => e.1 == key)).map Prod.snd

/-- The composite lookup key `((guint32) region_id << 16) + (guint32) type`,
computed in 32-bit unsigned arithmetic. -/
def regextKey (region_id ty : Nat) : Nat :=
  ((region_id % 4294967296) <<< 16 % 4294967296 + ty % 4294967296) % 4294967296

/-- What one resolution step produced: either a registered handler ran
on the span, or the span was rendered raw by the data dissector. -/
inductive RegExtResult where
  | handled : RegExtHandler → List Nat → RegExtResult
  | raw : List Nat → RegExtResult
  deriving DecidableEq

/-- `dissect_regextval_pdu`: try the region table at the composite key
of the context's `region_id` and `type`; on failure call the data
dissector.  Returns the rendered result and `tvb_captured_length(tvb)`. -/
def dissect_regextval_pdu (tbl : List (Nat × RegExtHandler))
    (re : its_private_data_t) (tvb : List Nat) : RegExtResult × Nat :=
  match dissector_try_uint_new tbl (regextKey re.region_id re.type) with
  | some h => (.handled h tvb, tvb.length)
  | none => (.raw tvb, tvb.length)

/-- Modelled from the spec: the numeric value of the `addGrpC` region
identifier comes from the generated header `packet-its.h`, absent from
the template source; the spec fixes the addGrpC-equivalent RegionId
as 0. -/
def addGrpC : Nat := 0

/-- Modelled from the spec: `regext_type_enum` values live in the
generated header `packet-its.h`, absent from the template source;
modelled as distinct consecutive naturals in registration order. -/
def Reg_ConnectionManeuverAssist : Nat := 0

/-- Modelled from the spec: `regext_type_enum` value (see
`Reg_ConnectionManeuverAssist`). -/
def Reg_GenericLane : Nat := 1

/-- Modelled from the spec: `regext_type_enum` value (see
`Reg_ConnectionManeuverAssist`). -/
def Reg_NodeAttributeSetXY : Nat := 2

/-- Modelled from the spec: `regext_type_enum` value (see
`Reg_ConnectionManeuverAssist`). -/
def Reg_IntersectionState : Nat := 3

/-- Modelled from the spec: `regext_type_enum` value (see
`Reg_ConnectionManeuverAssist`). -/
def Reg_MapData : Nat := 4

/-- Modelled from the spec: `regext_type_enum` value (see
`Reg_ConnectionManeuverAssist`). -/
def Reg_Position3D : Nat := 5

/-- Modelled from the spec: `regext_type_enum` value (see
`Reg_ConnectionManeuverAssist`). -/
def Reg_RestrictionUserType : Nat := 6

/-- Modelled from the spec: `regext_type_enum` value (see
`Reg_ConnectionManeuverAssist`). -/
def Reg_SignalStatusPackage : Nat := 7

/-- The `dsrc.regionid` dissector table as populated by
`proto_reg_handoff_its`: the eight `(addGrpC<<16)+Reg_...` keys bound to
the AddGrpC handlers, in source order. -/
def regionid_subdissector_table : List (Nat × RegExtHandler) :=
  [ ((addGrpC <<< 16) + Reg_ConnectionManeuverAssist,
      .ConnectionManeuverAssist_addGrpC),
    ((addGrpC <<< 16) + Reg_GenericLane, .ConnectionTrajectory_addGrpC),
    ((addGrpC <<< 16) + Reg_NodeAttributeSetXY, .Control_addGrpC),
    ((addGrpC <<< 16) + Reg_IntersectionState, .IntersectionState_addGrpC),
    ((addGrpC <<< 16) + Reg_MapData, .MapData_addGrpC),
    ((addGrpC <<< 16) + Reg_Position3D, .Position3D_addGrpC),
    ((addGrpC <<< 16) + Reg_RestrictionUserType, .RestrictionUserType_addGrpC),
    ((addGrpC <<< 16) + Reg_SignalStatusPackage, .SignalStatusPackage_addGrpC) ]

/-!
## Message-id dispatch and the Decode-As override store

The message-id dispatch runs through the host framework
(`dissector_try_uint` on `its.msg_id` inside the generated
`dissect_its_ItsPduHeader_PDU`, and the `decode_as` machinery behind
`register_decode_as(&its_da)`), none of which is in the template source.
These operations are modelled from the spec: a static registry and a
mutable override store, both association lists from MessageKind to a
parser binding, the override store consulted first on every dispatch,
and raw-byte fallback when neither binds the kind.
-/

variable {α : Type}

/-- Modelled from the spec: look a MessageKind up in a kind-to-parser
association (first matching entry wins). -/
def lookupKind (l : List (Nat × α)) (kind : Nat) : Option α :=
  (l.find? (fun e => e.1 == kind)).map Prod.snd

/-- Modelled from the spec: `setOverride(kind, p)` — last-write-wins
in-memory remapping of `kind` to `p` in the override store. -/
def setOverride (ov : List (Nat × α)) (kind : Nat) (p : α) : List (Nat × α) :=
  (kind, p) :: ov.filter (fun e => e.1 != kind)

/-- Modelled from the spec: `clearOverride(kind)` — drop any override
recorded for `kind`. -/
def clearOverride (ov : List (Nat × α)) (kind : Nat) : List (Nat × α) :=
  ov.filter (fun e => e.1 != kind)

/-- Modelled from the spec: the effective binding for a kind — the
Override Store is consulted before the static Message Registry. -/
def effectiveParser (static ov : List (Nat × α)) (kind : Nat) : Option α :=
  match lookupKind ov kind with
  | some p => some p
  | none => lookupKind static kind

/-- Outcome of one dispatch: a bound parser consumed the body, or the
body was rendered as raw bytes. -/
inductive DispatchResult (α : Type) where
  | parsed : α → List Nat → DispatchResult α
  | raw : List Nat → DispatchResult α
  deriving DecidableEq

/-- Modelled from the spec: `dispatch` — resolve the effective parser
for the header's MessageKind (override first, then static registry) and
invoke it on the remaining bytes; with no binding, render the bytes raw
and continue normally. -/
def dispatch (static ov : List (Nat × α)) (kind : Nat) (body : List Nat) :
    DispatchResult α :=
  match effectiveParser static ov kind with
  | some p => .parsed p body
  | none => .raw body

/-!
## Helper lemmas
-/

/-- If no entry with a non-NULL `hf` carries the sought cause, the scan
runs to a NULL-`hf` entry (or past the end) and yields `none`. -/
theorem subcauseScan_eq_none (l : List (Nat × Option SubCauseHf)) (cause : Nat)
    (h : ∀ p ∈ l, p.2.isSome → p.1 ≠ cause) : subcauseScan l cause = none := by
  induction l with
  | nil => rfl
  | cons e rest ih =>
      rw [subcauseScan]
      by_cases he : e.2.isSome
      · rw [if_pos ⟨he, h e (List.mem_cons_self e rest) he⟩]
        exact ih (fun p hp hs => h p (List.mem_cons_of_mem e hp) hs)
      · rw [if_neg (fun hc => he hc.1)]
        exact Option.not_isSome_iff_eq_none.mp he

/-- `knownCauses` is exactly the list of causes bound to a non-NULL
sub-cause field in `cause_to_subcause`. -/
theorem knownCauses_eq_table_causes :
    knownCauses = (cause_to_subcause.filter (fun p => p.2.isSome)).map Prod.fst := by
  decide

/-- A cause outside `knownCauses` matches no non-NULL entry of the
table. -/
theorem not_known_no_table_match (cause : Nat) (h : cause ∉ knownCauses) :
    ∀ p ∈ cause_to_subcause, p.2.isSome → p.1 ≠ cause := by
  intro p hp hs heq
  exact h (knownCauses_eq_table_causes ▸
    List.mem_map.mpr ⟨p, List.mem_filter.mpr ⟨hp, hs⟩, heq⟩)

/-- Clearing an override removes every binding for that kind. -/
theorem lookupKind_clearOverride {α : Type} (l : List (Nat × α)) (kind : Nat) :
    lookupKind (clearOverride l kind) kind = none := by
  rw [lookupKind, Option.map_eq_none', List.find?_eq_none]
  intro e he
  rw [clearOverride, List.mem_filter] at he
  simpa using he.2

/-!
## Claims
-/

/-- C2: for every CauseCode value outside the known enumerants bound in
the association table — the explicit reserved variant and any value
outside the enumerant range included — the sub-cause vocabulary lookup
returns the generic fallback `hf_its_subCauseCode` (it is total, so it
never signals an error), and resolving a SubCauseCode with no active
CauseCode recorded in the context also yields the fallback. -/
theorem find_subcause_fallback_unknown (cause : Nat) (h : cause ∉ knownCauses) :
    find_subcause_from_cause cause = .hf_its_subCauseCode ∧
    resolveSubCauseHf none = .hf_its_subCauseCode := by
  refine ⟨?_, by decide⟩
  rw [find_subcause_from_cause,
    subcauseScan_eq_none _ _ (not_known_no_table_match cause h)]
  rfl

/-- Witness for C2 at the concrete cause `reserved` (0). -/
theorem find_subcause_fallback_unknown_witness :
    reserved ∉ knownCauses ∧
    (find_subcause_from_cause reserved = .hf_its_subCauseCode ∧
     resolveSubCauseHf none = .hf_its_subCauseCode) :=
  ⟨by decide, find_subcause_fallback_unknown reserved (by decide)⟩

/-- C3 counterexample: the table binds a dedicated (non-fallback)
vocabulary to 24 pairwise-distinct cause codes, not 23, so "the lookup
yields a non-fallback vocabulary for exactly those [23] enumerants" is
false: 24 distinct causes already yield non-fallback vocabularies. -/
theorem knownCauses_count_is_24 :
    knownCauses.length = 24 ∧ knownCauses.Nodup ∧
    knownCauses.all (fun c => find_subcause_from_cause c ≠ .hf_its_subCauseCode) := by
  decide

/-- C3 amended (23 replaced by 24): the lookup yields a non-fallback
vocabulary for exactly the 24 known CauseCode enumerants, and on those
enumerants the lookup is injective: no two distinct known CauseCode
values share a non-fallback vocabulary. -/
theorem find_subcause_known_iff_injective (c : Nat) :
    (find_subcause_from_cause c ≠ .hf_its_subCauseCode ↔ c ∈ knownCauses) ∧
    (∀ c₁ ∈ knownCauses, ∀ c₂ ∈ knownCauses,
      find_subcause_from_cause c₁ = find_subcause_from_cause c₂ → c₁ = c₂) := by
  constructor
  · constructor
    · intro hne
      by_contra hmem
      refine hne ?_
      rw [find_subcause_from_cause,
        subcauseScan_eq_none _ _ (not_known_no_table_match c hmem)]
      rfl
    · intro hmem
      fin_cases hmem <;> decide
  · decide

/-- Witness for C3's amended theorem at concrete known causes. -/
theorem find_subcause_known_iff_injective_witness :
    roadworks ∈ knownCauses ∧ accident ∈ knownCauses ∧
    (find_subcause_from_cause roadworks = find_subcause_from_cause accident →
      roadworks = accident) :=
  ⟨by decide, by decide,
    (find_subcause_known_iff_injective 0).2 roadworks (by decide) accident (by decide)⟩

/-- C4: for every context whose (RegionId, ExtensionKind) composite key
has no handler registered in the region table, `dissect_regextval_pdu`
renders the bytes with the data dissector (raw bytes) and reports the
full captured length; being a total function, it raises nothing. -/
theorem dissect_regextval_pdu_unregistered_raw (tbl : List (Nat × RegExtHandler))
    (re : its_private_data_t) (tvb : List Nat)
    (h : dissector_try_uint_new tbl (regextKey re.region_id re.type) = none) :
    dissect_regextval_pdu tbl re tvb = (.raw tvb, tvb.length) := by
  rw [dissect_regextval_pdu, h]

/-- Witness for C4: region 5 with kind 9999 is not registered on the
populated region table. -/
theorem dissect_regextval_pdu_unregistered_raw_witness :
    dissector_try_uint_new regionid_subdissector_table (regextKey 5 9999) = none ∧
    dissect_regextval_pdu regionid_subdissector_table ⟨9999, 5, 0⟩ [1, 2, 3]
      = (.raw [1, 2, 3], 3) :=
  ⟨by decide,
    dissect_regextval_pdu_unregistered_raw regionid_subdissector_table
      ⟨9999, 5, 0⟩ [1, 2, 3] (by decide)⟩

/-- C6: resolving an open-type field with RegionId `addGrpC` (0, the
addGrpC-equivalent region of the spec) and ExtensionKind
`Reg_IntersectionState` on the populated region table invokes the
registered AddGrpC intersection-state handler, while the same
ExtensionKind under any RegionId whose key carries no registration
falls back to raw bytes. -/
theorem regextval_intersection_state_dispatch (cc r : Nat) (tvb : List Nat)
    (h : dissector_try_uint_new regionid_subdissector_table
          (regextKey r Reg_IntersectionState) = none) :
    dissect_regextval_pdu regionid_subdissector_table
        ⟨Reg_IntersectionState, addGrpC, cc⟩ tvb
      = (.handled .IntersectionState_addGrpC tvb, tvb.length) ∧
    dissect_regextval_pdu regionid_subdissector_table
        ⟨Reg_IntersectionState, r, cc⟩ tvb
      = (.raw tvb, tvb.length) := by
  constructor
  · have hk : dissector_try_uint_new regionid_subdissector_table
        (regextKey addGrpC Reg_IntersectionState)
        = some RegExtHandler.IntersectionState_addGrpC := by decide
    simp only [dissect_regextval_pdu, hk]
  · simp only [dissect_regextval_pdu, h]

/-- Witness for C6: RegionId 1 has no registration for the
intersection-state extension kind. -/
theorem regextval_intersection_state_dispatch_witness :
    dissector_try_uint_new regionid_subdissector_table
      (regextKey 1 Reg_IntersectionState) = none ∧
    (dissect_regextval_pdu regionid_subdissector_table
        ⟨Reg_IntersectionState, addGrpC, 0⟩ [5]
       = (.handled .IntersectionState_addGrpC [5], 1) ∧
     dissect_regextval_pdu regionid_subdissector_table
        ⟨Reg_IntersectionState, 1, 0⟩ [5]
       = (.raw [5], 1)) :=
  ⟨by decide, regextval_intersection_state_dispatch 0 1 [5] (by decide)⟩

/-- C8: the resolver selects a handler exactly when the table maps the
composite key formed from the context's recorded `region_id` and the
decoded field's extension kind to that handler, and the outcome depends
on no other context field: contexts agreeing on `region_id` and `type`
resolve identically. -/
theorem dissect_regextval_pdu_uses_context_key (tbl : List (Nat × RegExtHandler))
    (re re' : its_private_data_t) (tvb : List Nat) (h : RegExtHandler) :
    ((dissect_regextval_pdu tbl re tvb).1 = .handled h tvb ↔
      dissector_try_uint_new tbl (regextKey re.region_id re.type) = some h) ∧
    (re'.region_id = re.region_id → re'.type = re.type →
      dissect_regextval_pdu tbl re' tvb = dissect_regextval_pdu tbl re tvb) := by
  constructor
  · rw [dissect_regextval_pdu]
    cases hx : dissector_try_uint_new tbl (regextKey re.region_id re.type) with
    | none => simp
    | some h' => simp
  · intro hr ht
    rw [dissect_regextval_pdu, dissect_regextval_pdu, hr, ht]

/-- Witness for C8: two contexts differing only in `cause_code`. -/
theorem dissect_regextval_pdu_uses_context_key_witness :
    ((dissect_regextval_pdu regionid_subdissector_table ⟨3, 0, 0⟩ [1]).1
        = .handled .IntersectionState_addGrpC [1] ↔
      dissector_try_uint_new regionid_subdissector_table (regextKey 0 3)
        = some .IntersectionState_addGrpC) ∧
    dissect_regextval_pdu regionid_subdissector_table ⟨3, 0, 7⟩ [1]
      = dissect_regextval_pdu regionid_subdissector_table ⟨3, 0, 0⟩ [1] :=
  ⟨(dissect_regextval_pdu_uses_context_key regionid_subdissector_table
      ⟨3, 0, 0⟩ ⟨3, 0, 7⟩ [1] .IntersectionState_addGrpC).1,
   (dissect_regextval_pdu_uses_context_key regionid_subdissector_table
      ⟨3, 0, 0⟩ ⟨3, 0, 7⟩ [1] .IntersectionState_addGrpC).2 rfl rfl⟩

/-- C9: `dissect_regextval_pdu` always reports the full captured length
of its byte span as consumed — on the handler path and on the raw-bytes
fallback path alike; it never reports partial consumption. -/
theorem dissect_regextval_pdu_consumes_full_length
    (tbl : List (Nat × RegExtHandler)) (re : its_private_data_t)
    (tvb : List Nat) :
    (dissect_regextval_pdu tbl re tvb).2 = tvb.length := by
  rw [dissect_regextval_pdu]
  cases dissector_try_uint_new tbl (regextKey re.region_id re.type) <;> rfl

/-- C10 counterexample: the composite key wraps modulo 2^32, so the pair
map is not injective for all RegionId values even with ExtensionKind
below 2^16: RegionId 65536 with kind 0 collides with RegionId 0 with
kind 0. -/
theorem regextKey_wraps_at_region_65536 :
    regextKey 65536 0 = regextKey 0 0 ∧ (65536 : Nat) ≠ 0 ∧ (0 : Nat) < 65536 := by
  decide

/-- C10 amended (injectivity additionally requires RegionId below 2^16):
the key is `(RegionId << 16) + ExtensionKind` in 32-bit unsigned
arithmetic; the mapping is injective whenever both RegionId and
ExtensionKind are below 2^16, and the 8 statically registered addGrpC
keys are pairwise distinct. -/
theorem regextKey_injective_below_2_16 (r₁ k₁ r₂ k₂ : Nat)
    (hr₁ : r₁ < 65536) (hk₁ : k₁ < 65536) (hr₂ : r₂ < 65536) (hk₂ : k₂ < 65536)
    (heq : regextKey r₁ k₁ = regextKey r₂ k₂) :
    (r₁ = r₂ ∧ k₁ = k₂) ∧
    (regionid_subdissector_table.map Prod.fst).Nodup := by
  refine ⟨?_, by decide⟩
  simp only [regextKey, Nat.shiftLeft_eq] at heq
  norm_num at heq
  omega

/-- Witness for C10's amended theorem at a concrete in-range pair. -/
theorem regextKey_injective_below_2_16_witness :
    ((3 : Nat) < 65536 ∧ (5 : Nat) < 65536) ∧
    (((3 : Nat) = 3 ∧ (5 : Nat) = 5) ∧
      (regionid_subdissector_table.map Prod.fst).Nodup) :=
  ⟨⟨by decide, by decide⟩,
    regextKey_injective_below_2_16 3 5 3 5 (by decide) (by decide) (by decide)
      (by decide) rfl⟩

/-- C1 (dispatch modelled from the spec): for a kind registered in the
static registry, dispatch invokes exactly the registered parser when no
override exists, and whenever a Decode-As override exists for the kind
its parser is invoked instead — the override store is consulted first on
every dispatch. -/
theorem dispatch_override_precedence {α : Type} (static ov : List (Nat × α))
    (kind : Nat) (body : List Nat) (p q : α) :
    (lookupKind ov kind = none → lookupKind static kind = some p →
      dispatch static ov kind body = .parsed p body) ∧
    (lookupKind ov kind = some q → dispatch static ov kind body = .parsed q body) := by
  constructor
  · intro h1 h2
    rw [dispatch, effectiveParser, h1, h2]
  · intro h1
    rw [dispatch, effectiveParser, h1]

/-- Witness for C1: static binding 1 ↦ 10, override 1 ↦ 20. -/
theorem dispatch_override_precedence_witness :
    (lookupKind ([] : List (Nat × Nat)) 1 = none ∧
     lookupKind [(1, 10)] 1 = some 10 ∧
     dispatch [(1, 10)] ([] : List (Nat × Nat)) 1 [0] = .parsed 10 [0]) ∧
    (lookupKind [(1, 20)] 1 = some 20 ∧
     dispatch [(1, 10)] [(1, 20)] 1 [0] = .parsed 20 [0]) :=
  ⟨⟨rfl, rfl, (dispatch_override_precedence [(1, 10)] [] 1 [0] 10 20).1 rfl rfl⟩,
   ⟨rfl, (dispatch_override_precedence [(1, 10)] [(1, 20)] 1 [0] 10 20).2 rfl⟩⟩

/-- C5 (dispatch modelled from the spec): a MessageKind with neither a
static registration nor an override dispatches to a raw-bytes result;
dispatch is total, so nothing is raised and dissection continues. -/
theorem dispatch_unregistered_raw {α : Type} (static ov : List (Nat × α))
    (kind : Nat) (body : List Nat)
    (h1 : lookupKind static kind = none) (h2 : lookupKind ov kind = none) :
    dispatch static ov kind body = .raw body := by
  rw [dispatch, effectiveParser, h2, h1]

/-- Witness for C5: kind 42 bound nowhere. -/
theorem dispatch_unregistered_raw_witness :
    lookupKind [((1 : Nat), (10 : Nat))] 42 = none ∧
    lookupKind ([] : List (Nat × Nat)) 42 = none ∧
    dispatch [(1, 10)] ([] : List (Nat × Nat)) 42 [7] = .raw [7] :=
  ⟨rfl, rfl, dispatch_unregistered_raw [(1, 10)] [] 42 [7] rfl rfl⟩

/-- C7 (override store modelled from the spec): repeated
`setOverride(kind, p)` with identical arguments leaves the store — hence
the effective binding — unchanged, and `clearOverride(kind)` after
`setOverride(kind, p)` restores the pre-override static binding, so a
subsequent dispatch of that kind invokes the originally registered
parser again. -/
theorem setOverride_idempotent_clearOverride_restores {α : Type}
    (static ov : List (Nat × α)) (kind : Nat) (p p₁ : α) (body : List Nat)
    (h : lookupKind static kind = some p₁) :
    setOverride (setOverride ov kind p) kind p = setOverride ov kind p ∧
    dispatch static (clearOverride (setOverride ov kind p) kind) kind body
      = .parsed p₁ body := by
  constructor
  · simp [setOverride, List.filter_filter]
  · rw [dispatch, effectiveParser, lookupKind_clearOverride, h]

/-- Witness for C7: static binding 1 ↦ 10, override with parser 20. -/
theorem setOverride_idempotent_clearOverride_restores_witness :
    lookupKind [((1 : Nat), (10 : Nat))] 1 = some 10 ∧
    (setOverride (setOverride ([] : List (Nat × Nat)) 1 20) 1 20
       = setOverride [] 1 20 ∧
     dispatch [(1, 10)] (clearOverride (setOverride ([] : List (Nat × Nat)) 1 20) 1)
        1 [0] = .parsed 10 [0]) :=
  ⟨rfl, setOverride_idempotent_clearOverride_restores [(1, 10)] [] 1 20 10 [0] rfl⟩

end ItsDissector
